import Mathlib

/-!
Verification of the `webgl-image-sequence` utility module
(`src/assets/scripts/shaders/pepitos/fragment.shader.js`, the related
`utils` module, and the orchestrator script).

The pure computations of the JavaScript source are embedded as Lean
functions; the WebGL side effects of `createShader` and of the texture
`onload` callback are embedded as explicit traces of GL calls.  Machine
integers follow JavaScript semantics: bitwise operators act on 32-bit
views, modelled by explicit reduction mod `2 ^ 32`; `Array(n)` with a
negative length throws, modelled by an `Option` result.  Pointer
coordinates and the index arithmetic of the mouse handler are modelled
over `ℚ` (the exact-arithmetic reading of the JavaScript numbers; every
concrete computation relevant here is exact in both readings).
-/

namespace ImageSequence

/-- `gl.TEXTURE_2D` (GLenum value 0x0DE1). -/
def TEXTURE_2D : Nat := 3553

/-- `gl.TEXTURE_WRAP_S` (GLenum value 0x2802). -/
def TEXTURE_WRAP_S : Nat := 10242

/-- `gl.TEXTURE_WRAP_T` (GLenum value 0x2803). -/
def TEXTURE_WRAP_T : Nat := 10243

/-- `gl.TEXTURE_MIN_FILTER` (GLenum value 0x2801). -/
def TEXTURE_MIN_FILTER : Nat := 10241

/-- `gl.CLAMP_TO_EDGE` (GLenum value 0x812F). -/
def CLAMP_TO_EDGE : Nat := 33071

/-- `gl.LINEAR` (GLenum value 0x2601). -/
def LINEAR : Nat := 9729

/-- Source: `function isPowerOf2(value) { return (value & (value - 1)) === 0; }`.
JavaScript `&` converts both operands to 32-bit integers, so for a natural
`value` the operands are the bit patterns `value mod 2 ^ 32` and
`(value - 1) mod 2 ^ 32`; for `value = 0` the second operand is the all-ones
pattern `2 ^ 32 - 1`, exactly as `ToInt32(-1)` is in JavaScript. -/
def isPowerOf2 (value : Nat) : Bool :=
  decide ((value % 2 ^ 32) &&& ((value + 2 ^ 32 - 1) % 2 ^ 32) = 0)

/-- Source: `function repeat(n, pattern) { return [...Array(n)].reduce((sum) => sum.concat(pattern), []); }`.
`Array(n)` throws a `RangeError` for a negative length, so the embedding
returns `none` exactly there; otherwise `[...Array(n)]` has `n` elements and
the `reduce` appends `pattern` once per element starting from `[]`.
(The Lean name avoids the reserved word `repeat`.) -/
def repeatJS {α : Type} (n : Int) (pattern : List α) : Option (List α) :=
  if n < 0 then none
  else some ((List.range n.toNat).foldl (fun sum _ => sum ++ pattern) [])

/-- One observable WebGL context call, as issued by `createShader` and by the
`image.onload` callback of `loadTexture`. -/
inductive GLCall : Type where
  | bindTexture (target handle : Nat)
  | texImage2D (width height : Nat)
  | generateMipmap (target : Nat)
  | texParameteri (target pname param : Nat)
  | shaderSource (handle : Nat) (src : String)
  | compileShader (handle : Nat)
  | consoleLog (msg : String)
  | deleteShader (handle : Nat)
  deriving DecidableEq, Repr

/-- Source: `createShader(gl, type, source)` (lines 111-131).  The context is
abstracted by the compile oracle `compileOk` (the value of
`gl.getShaderParameter(shader, gl.COMPILE_STATUS)`), the info-log oracle
`infoLog` (`gl.getShaderInfoLog`), and the fresh handle `shader` returned by
`gl.createShader`.  The result is the returned handle (`none` = the
JavaScript function falls off the end and returns `undefined`) together with
the trace of calls issued; the function is total — it never throws. -/
def createShader (compileOk : String → Bool) (infoLog : String → String)
    (shader : Nat) (source : String) : Option Nat × List GLCall :=
  if compileOk source then
    (some shader, [GLCall.shaderSource shader source, GLCall.compileShader shader])
  else
    (none,
      [GLCall.shaderSource shader source, GLCall.compileShader shader,
       GLCall.consoleLog (infoLog source), GLCall.deleteShader shader])

/-- Source: the `image.onload` callback inside `loadTexture(gl, url)`
(lines 62-90): bind the texture, upload the image, then either generate
mipmaps (both dimensions pass `isPowerOf2`) or set clamp-to-edge wrapping on
both axes and a linear minification filter. -/
def textureOnLoad (texture width height : Nat) : List GLCall :=
  [GLCall.bindTexture TEXTURE_2D texture, GLCall.texImage2D width height] ++
    (if isPowerOf2 width && isPowerOf2 height then
      [GLCall.generateMipmap TEXTURE_2D]
    else
      [GLCall.texParameteri TEXTURE_2D TEXTURE_WRAP_S CLAMP_TO_EDGE,
       GLCall.texParameteri TEXTURE_2D TEXTURE_WRAP_T CLAMP_TO_EDGE,
       GLCall.texParameteri TEXTURE_2D TEXTURE_MIN_FILTER LINEAR])

/-- Source: `getMouseX(x) { return (x / window.innerWidth) * 2 - 1; }`, with
`window.innerWidth` passed explicitly. -/
def getMouseX (x innerWidth : ℚ) : ℚ :=
  x / innerWidth * 2 - 1

/-- Source: `const textureIndex = Math.floor(((x + min) * max) / 2)` inside
`handleImageShown` (line 194), where `x` is the normalized mouse position. -/
def frameIndex (x min max : ℚ) : ℤ :=
  ⌊(x + min) * max / 2⌋

/-- The frame-index formula as the spec states it (section 4.4):
`frameIndex(normalizedX, min, max) = floor(((normalizedX + min) * max) / 2)`.
Kept separate from `frameIndex` (which is read off the source) so that the
two can be compared. -/
def frameIndexSpec (normalizedX min max : ℚ) : ℤ :=
  ⌊(normalizedX + min) * max / 2⌋

/-- The texture URL built on line 197 for a given index. -/
def textureUrl (textureIndex : ℤ) : String :=
  "assets/images/image-" ++ toString textureIndex ++ ".webp"

/-- Source: `handleImageShown(e, gl, min, max)` (lines 191-199): compute the
normalized x, compute `textureIndex`, return without loading when it is `0`,
otherwise request `assets/images/image-<textureIndex>.webp`.  The observable
outcome is the requested URL (`none` = no load requested). -/
def handleImageShown (clientX innerWidth min max : ℚ) : Option String :=
  if frameIndex (getMouseX clientX innerWidth) min max = 0 then none
  else some (textureUrl (frameIndex (getMouseX clientX innerWidth) min max))

/-- Source: `const imageSequenceLength = 118` in the orchestrator script;
the mousemove listener calls `handleImageShown(e, gl, 1, imageSequenceLength)`. -/
def imageSequenceLength : ℚ := 118

/-- Folding append-of-`p` over any list is concatenation of
`length`-many copies of `p` after the accumulator. -/
theorem foldl_append_replicate {α β : Type} (p : List α) (l : List β) (acc : List α) :
    l.foldl (fun sum _ => sum ++ p) acc = acc ++ (List.replicate l.length p).flatten := by
  induction l generalizing acc with
  | nil => simp
  | cons b t ih =>
    simp [List.foldl_cons, ih, List.replicate_succ, List.append_assoc]

/-- Concatenating `n` copies of `p` yields `n * length p` elements. -/
theorem flatten_replicate_length {α : Type} (n : Nat) (p : List α) :
    ((List.replicate n p).flatten).length = n * p.length := by
  induction n with
  | zero => simp
  | succ m ih => simp [List.replicate_succ, ih, Nat.succ_mul, Nat.add_comm]

/-- A power of two ANDed with its predecessor is zero. -/
theorem two_pow_and_pred (k : Nat) : 2 ^ k &&& (2 ^ k - 1) = 0 := by
  apply Nat.eq_of_testBit_eq
  intro i
  simp only [Nat.testBit_and, Nat.testBit_two_pow, Nat.testBit_two_pow_sub_one,
    Nat.zero_testBit, Bool.and_eq_false_iff, decide_eq_false_iff_not]
  omega

/-- Conversely, a positive number ANDing to zero with its predecessor is a
power of two. -/
theorem pow2_of_and_pred_eq_zero :
    ∀ v : Nat, 1 ≤ v → v &&& (v - 1) = 0 → ∃ k, v = 2 ^ k := by
  intro v
  induction v using Nat.strong_induction_on with
  | _ v ih =>
    intro hv hand
    have hhalf : (v &&& (v - 1)) / 2 = v / 2 &&& (v - 1) / 2 := Nat.and_div_two
    rcases Nat.even_or_odd v with he | ho
    · obtain ⟨m, hm⟩ := he
      have hm1 : 1 ≤ m := by omega
      have hv2 : v / 2 = m := by omega
      have hv12 : (v - 1) / 2 = m - 1 := by omega
      have hmand : m &&& (m - 1) = 0 := by
        rw [hand] at hhalf
        rw [hv2, hv12] at hhalf
        omega
      obtain ⟨k, hk⟩ := ih m (by omega) hm1 hmand
      exact ⟨k + 1, by rw [pow_succ]; omega⟩
    · obtain ⟨m, hm⟩ := ho
      rcases Nat.eq_zero_or_pos m with h0 | hpos
      · exact ⟨0, by omega⟩
      · exfalso
        have hv2 : v / 2 = m := by omega
        have hv12 : (v - 1) / 2 = m := by omega
        rw [hand, hv2, hv12, Nat.and_self] at hhalf
        omega

/-- For arguments in the 32-bit range, the source's check accepts exactly the
powers of two — and also `0`. -/
theorem isPowerOf2_iff (v : Nat) (h1 : 1 ≤ v) (h2 : v < 2 ^ 32) :
    isPowerOf2 v = true ↔ ∃ k, v = 2 ^ k := by
  have hmod1 : v % 2 ^ 32 = v := Nat.mod_eq_of_lt h2
  have hmod2 : (v + 2 ^ 32 - 1) % 2 ^ 32 = v - 1 := by
    have hstep : v + 2 ^ 32 - 1 = (v - 1) + 2 ^ 32 := by omega
    rw [hstep, Nat.add_mod_right]
    exact Nat.mod_eq_of_lt (by omega)
  unfold isPowerOf2
  rw [hmod1, hmod2, decide_eq_true_eq]
  constructor
  · exact pow2_of_and_pred_eq_zero v h1
  · rintro ⟨k, rfl⟩
    exact two_pow_and_pred k

/-- C1 counterexample: the claim says `isPowerOf2` is false at `0`, but the
source's `(value & (value - 1)) === 0` is true at `0` (the AND of `0` with
the all-ones 32-bit pattern is `0`). -/
theorem C1_pow2_zero_counterexample : isPowerOf2 0 = true := by decide

/-- C1 (amended): the power-of-two check returns true for every value in
`{0, 1, 2, 4, 8, 256, 1024}` — including `0`, which the bit trick accepts —
and false for every value in `{3, 5, 1023, 1025}`. -/
theorem C1_pow2_check_values :
    isPowerOf2 0 = true ∧ isPowerOf2 1 = true ∧ isPowerOf2 2 = true ∧
    isPowerOf2 4 = true ∧ isPowerOf2 8 = true ∧ isPowerOf2 256 = true ∧
    isPowerOf2 1024 = true ∧ isPowerOf2 3 = false ∧ isPowerOf2 5 = false ∧
    isPowerOf2 1023 = false ∧ isPowerOf2 1025 = false := by
  decide

/-- C4: for every `n ≥ 0` and every pattern `p` (including empty `p`),
`repeat(n, p)` succeeds and equals `p` concatenated `n` times in order, its
length is `n * length p`, and `repeat(0, p)` is the empty sequence.  The
embedding is a pure function, so there are no side effects. -/
theorem C4_repeat_concat {α : Type} (n : Int) (p : List α) (h : 0 ≤ n) :
    repeatJS n p = some ((List.replicate n.toNat p).flatten) ∧
    ((List.replicate n.toNat p).flatten).length = n.toNat * p.length ∧
    repeatJS 0 p = some ([] : List α) := by
  refine ⟨?_, flatten_replicate_length n.toNat p, ?_⟩
  · unfold repeatJS
    rw [if_neg (by omega)]
    rw [foldl_append_replicate, List.length_range, List.nil_append]
  · unfold repeatJS
    rw [if_neg (by omega)]
    simp

/-- C4 witness: the spec scenario `repeat(2, [1,2]) = [1,2,1,2]`, with the
length and `n = 0` facts evaluated. -/
theorem C4_repeat_concat_witness :
    repeatJS (2 : Int) ([1, 2] : List ℕ) = some [1, 2, 1, 2] ∧
    ([1, 2, 1, 2] : List ℕ).length = 2 * 2 ∧
    repeatJS (0 : Int) ([1, 2] : List ℕ) = some [] := by
  have h := C4_repeat_concat (α := ℕ) 2 [1, 2] (by norm_num)
  simpa using h

/-- C10: `repeat` with a negative count fails (`Array(n)` throws a
`RangeError` for a negative length); in the total embedding, `repeatJS`
returns `none` exactly when `n < 0`. -/
theorem C10_repeat_negative {α : Type} (n : Int) (p : List α) :
    repeatJS n p = none ↔ n < 0 := by
  unfold repeatJS
  by_cases h : n < 0 <;> simp [h]

/-- C9: pointer normalization maps `0` to `-1` and the full viewport width
`W` to `1`, for every `W > 0`. -/
theorem C9_normalize_endpoints (W : ℚ) (h : 0 < W) :
    getMouseX 0 W = -1 ∧ getMouseX W W = 1 := by
  constructor
  · simp [getMouseX]
  · unfold getMouseX
    rw [div_self (ne_of_gt h)]
    norm_num

/-- C9 witness: the endpoints at the concrete viewport width `W = 4`. -/
theorem C9_normalize_endpoints_witness :
    getMouseX 0 4 = -1 ∧ getMouseX 4 4 = 1 :=
  C9_normalize_endpoints 4 (by norm_num)

/-- C6: in the pointer-move handler, a computed frame index of exactly `0`
requests no texture load, and any other computed index requests exactly the
URL `image-<frameIndex>`. -/
theorem C6_zero_index_noop (clientX W min max : ℚ) :
    (frameIndex (getMouseX clientX W) min max = 0 →
      handleImageShown clientX W min max = none) ∧
    (frameIndex (getMouseX clientX W) min max ≠ 0 →
      handleImageShown clientX W min max =
        some (textureUrl (frameIndex (getMouseX clientX W) min max))) := by
  unfold handleImageShown
  constructor <;> intro h <;> simp [h]

/-- C6 witness: at `clientX = 1`, `W = 2`, `min = 1`, `max = 118` the index
is `59 ≠ 0` and the load of `image-59` is requested; the zero branch is
instantiated at the same point. -/
theorem C6_zero_index_noop_witness :
    (frameIndex (getMouseX 1 2) 1 118 = 0 → handleImageShown 1 2 1 118 = none) ∧
    (frameIndex (getMouseX 1 2) 1 118 ≠ 0 →
      handleImageShown 1 2 1 118 = some (textureUrl (frameIndex (getMouseX 1 2) 1 118))) :=
  C6_zero_index_noop 1 2 1 118

/-- C7: `createShader` on a source that fails to compile logs the compiler
diagnostic, deletes the shader resource and returns an absent handle; on a
source that compiles it returns the compiled handle.  The embedding is a
total function — no execution path throws. -/
theorem C7_shader_compile (compileOk : String → Bool) (infoLog : String → String)
    (shader : Nat) (source : String) :
    (compileOk source = false →
      (createShader compileOk infoLog shader source).1 = none ∧
      GLCall.consoleLog (infoLog source) ∈ (createShader compileOk infoLog shader source).2 ∧
      GLCall.deleteShader shader ∈ (createShader compileOk infoLog shader source).2) ∧
    (compileOk source = true →
      (createShader compileOk infoLog shader source).1 = some shader) := by
  unfold createShader
  constructor <;> intro h <;> simp [h]

/-- C7 witness: a context whose compile status is always false, applied to a
syntactically invalid source, instantiated at handle `7`. -/
theorem C7_shader_compile_witness :
    ((fun _ : String => false) "bad source" = false →
      (createShader (fun _ => false) (fun _ => "ERROR: syntax") 7 "bad source").1 = none ∧
      GLCall.consoleLog ((fun _ : String => "ERROR: syntax") "bad source") ∈
        (createShader (fun _ => false) (fun _ => "ERROR: syntax") 7 "bad source").2 ∧
      GLCall.deleteShader 7 ∈
        (createShader (fun _ => false) (fun _ => "ERROR: syntax") 7 "bad source").2) ∧
    ((fun _ : String => false) "bad source" = true →
      (createShader (fun _ => false) (fun _ => "ERROR: syntax") 7 "bad source").1 = some 7) :=
  C7_shader_compile (fun _ => false) (fun _ => "ERROR: syntax") 7 "bad source"

/-- C5: the frame index is computed as `floor(((normalizedX + min) * max) / 2)`
(the source formula coincides with the spec's), and a pointer at screen
center (`clientX = W / 2`) with `min = 1`, `max = 118` gives a normalized x
of `0` and a frame index of `59`. -/
theorem C5_frame_formula_center (W : ℚ) (hW : 0 < W) :
    frameIndex = frameIndexSpec ∧
    getMouseX (W / 2) W = 0 ∧
    frameIndex (getMouseX (W / 2) W) 1 118 = 59 := by
  have h0 : getMouseX (W / 2) W = 0 := by
    have hne : W ≠ 0 := ne_of_gt hW
    unfold getMouseX
    field_simp
    ring
  refine ⟨rfl, h0, ?_⟩
  unfold frameIndex
  rw [h0]
  have harg : ((0 : ℚ) + 1) * 118 / 2 = (59 : ℚ) := by norm_num
  rw [harg]
  simp

/-- C5 witness: the center scenario at the concrete viewport width `W = 2`. -/
theorem C5_frame_formula_center_witness :
    frameIndex = frameIndexSpec ∧
    getMouseX (2 / 2) 2 = 0 ∧
    frameIndex (getMouseX (2 / 2) 2) 1 118 = 59 :=
  C5_frame_formula_center 2 (by norm_num)

/-- C2: with the deployed parameters `min = 1`, `max = imageSequenceLength = 118`,
every pointer position `clientX ∈ [0, W]` (for `W > 0`) yields an integer
frame index in `[0, 118]`; index `0` requests no texture, and any other
index requests exactly `image-<k>` with `k ∈ [1, 118]`. -/
theorem C2_frame_index_bounds (clientX W : ℚ) (hW : 0 < W)
    (h0 : 0 ≤ clientX) (h1 : clientX ≤ W) :
    0 ≤ frameIndex (getMouseX clientX W) 1 imageSequenceLength ∧
    frameIndex (getMouseX clientX W) 1 imageSequenceLength ≤ 118 ∧
    (frameIndex (getMouseX clientX W) 1 imageSequenceLength = 0 →
      handleImageShown clientX W 1 imageSequenceLength = none) ∧
    (frameIndex (getMouseX clientX W) 1 imageSequenceLength ≠ 0 →
      handleImageShown clientX W 1 imageSequenceLength =
        some (textureUrl (frameIndex (getMouseX clientX W) 1 imageSequenceLength)) ∧
      1 ≤ frameIndex (getMouseX clientX W) 1 imageSequenceLength) := by
  have hdivlo : 0 ≤ clientX / W := div_nonneg h0 (le_of_lt hW)
  have hdivhi : clientX / W ≤ 1 := (div_le_one hW).mpr h1
  have hxlo : -1 ≤ getMouseX clientX W := by unfold getMouseX; linarith
  have hxhi : getMouseX clientX W ≤ 1 := by unfold getMouseX; linarith
  have hlo : 0 ≤ frameIndex (getMouseX clientX W) 1 imageSequenceLength := by
    unfold frameIndex imageSequenceLength
    apply Int.floor_nonneg.mpr
    nlinarith
  have hhi : frameIndex (getMouseX clientX W) 1 imageSequenceLength ≤ 118 := by
    unfold frameIndex imageSequenceLength
    have hle : (getMouseX clientX W + 1) * 118 / 2 ≤ (118 : ℚ) := by nlinarith
    have hfl := Int.floor_le_floor hle
    simpa using hfl
  refine ⟨hlo, hhi, ?_, ?_⟩
  · intro h
    unfold handleImageShown
    simp [h]
  · intro h
    constructor
    · unfold handleImageShown
      simp [h]
    · omega

/-- C2 witness: `clientX = 30`, `W = 40` gives normalized x `1/2` and frame
index `⌊88.5⌋ = 88`, inside `[1, 118]`. -/
theorem C2_frame_index_bounds_witness :
    0 ≤ frameIndex (getMouseX 30 40) 1 imageSequenceLength ∧
    frameIndex (getMouseX 30 40) 1 imageSequenceLength ≤ 118 ∧
    (frameIndex (getMouseX 30 40) 1 imageSequenceLength = 0 →
      handleImageShown 30 40 1 imageSequenceLength = none) ∧
    (frameIndex (getMouseX 30 40) 1 imageSequenceLength ≠ 0 →
      handleImageShown 30 40 1 imageSequenceLength =
        some (textureUrl (frameIndex (getMouseX 30 40) 1 imageSequenceLength)) ∧
      1 ≤ frameIndex (getMouseX 30 40) 1 imageSequenceLength) :=
  C2_frame_index_bounds 30 40 (by norm_num) (by norm_num) (by norm_num)

/-- C3 counterexample: with `min = 0`, `max = -2` (fixed), viewport width
`W = 1 > 0` and pointer positions `x1 = 0 ≤ x2 = 1`, the frame index at `x1`
is `1` and at `x2` is `-1`, so it is not monotonic non-decreasing for every
fixed `min` and `max`. -/
theorem C3_monotone_counterexample :
    (0 : ℚ) ≤ 1 ∧ (0 : ℚ) < 1 ∧
    ¬ frameIndex (getMouseX 0 1) 0 (-2) ≤ frameIndex (getMouseX 1 1) 0 (-2) := by
  refine ⟨by norm_num, by norm_num, ?_⟩
  have h1 : getMouseX 0 1 = -1 := by norm_num [getMouseX]
  have h2 : getMouseX 1 1 = 1 := by norm_num [getMouseX]
  rw [h1, h2]
  unfold frameIndex
  have e1 : ((-1 : ℚ) + 0) * (-2) / 2 = 1 := by norm_num
  have e2 : ((1 : ℚ) + 0) * (-2) / 2 = -1 := by norm_num
  rw [e1, e2]
  have f2 : ⌊(-1 : ℚ)⌋ = -1 := by
    have hcast := Int.floor_intCast (α := ℚ) (-1)
    simpa using hcast
  rw [Int.floor_one, f2]
  norm_num

/-- C3 (amended): for every fixed `min` and every fixed `max ≥ 0`, the frame
index is monotonic non-decreasing in the pointer x coordinate, for any fixed
positive viewport width (for `max < 0` the map is reversed, as the
counterexample shows). -/
theorem C3_frame_index_monotone (W min max x1 x2 : ℚ) (hW : 0 < W)
    (hmax : 0 ≤ max) (h : x1 ≤ x2) :
    frameIndex (getMouseX x1 W) min max ≤ frameIndex (getMouseX x2 W) min max := by
  unfold frameIndex
  apply Int.floor_le_floor
  have hdiv : x1 / W ≤ x2 / W := by gcongr
  have hx : getMouseX x1 W ≤ getMouseX x2 W := by
    unfold getMouseX
    linarith
  have hmul : (getMouseX x1 W + min) * max ≤ (getMouseX x2 W + min) * max :=
    mul_le_mul_of_nonneg_right (by linarith) hmax
  linarith

/-- C3 witness: `W = 1`, `min = 0`, `max = 2`, `x1 = 0 ≤ x2 = 1`. -/
theorem C3_frame_index_monotone_witness :
    frameIndex (getMouseX 0 1) 0 2 ≤ frameIndex (getMouseX 1 1) 0 2 :=
  C3_frame_index_monotone 1 0 2 0 1 (by norm_num) (by norm_num) (by norm_num)

/-- C8 counterexample: a loaded image of width `0` and height `16`: `0` is
not an exact power of two, yet the callback generates mipmaps (the bit trick
in `isPowerOf2` accepts `0`) and does not apply the clamp-to-edge branch,
contradicting the claim's "otherwise" clause. -/
theorem C8_mipmap_counterexample :
    (¬ ∃ k, (0 : Nat) = 2 ^ k) ∧
    GLCall.generateMipmap TEXTURE_2D ∈ textureOnLoad 1 0 16 ∧
    GLCall.texParameteri TEXTURE_2D TEXTURE_WRAP_S CLAMP_TO_EDGE ∉ textureOnLoad 1 0 16 := by
  refine ⟨?_, by decide, by decide⟩
  rintro ⟨k, hk⟩
  exact (pow_pos (by norm_num : (0 : ℕ) < 2) k).ne' hk.symm

/-- C8 (amended): for every loaded image whose width and height are positive
(and in the 32-bit range): if both dimensions are exact powers of two the
callback binds, uploads and generates mipmaps; otherwise it binds, uploads,
sets clamp-to-edge wrapping on both axes and a linear minification filter,
and generates no mipmaps.  (For a zero dimension the code takes the mipmap
branch, as the counterexample shows.) -/
theorem C8_mipmap_policy (texture width height : Nat)
    (hw1 : 1 ≤ width) (hw2 : width < 2 ^ 32)
    (hh1 : 1 ≤ height) (hh2 : height < 2 ^ 32) :
    ((∃ j, width = 2 ^ j) ∧ (∃ k, height = 2 ^ k) →
      textureOnLoad texture width height =
        [GLCall.bindTexture TEXTURE_2D texture, GLCall.texImage2D width height,
         GLCall.generateMipmap TEXTURE_2D]) ∧
    (¬ ((∃ j, width = 2 ^ j) ∧ (∃ k, height = 2 ^ k)) →
      textureOnLoad texture width height =
        [GLCall.bindTexture TEXTURE_2D texture, GLCall.texImage2D width height,
         GLCall.texParameteri TEXTURE_2D TEXTURE_WRAP_S CLAMP_TO_EDGE,
         GLCall.texParameteri TEXTURE_2D TEXTURE_WRAP_T CLAMP_TO_EDGE,
         GLCall.texParameteri TEXTURE_2D TEXTURE_MIN_FILTER LINEAR]) := by
  have hw := isPowerOf2_iff width hw1 hw2
  have hh := isPowerOf2_iff height hh1 hh2
  constructor
  · rintro ⟨hwp, hhp⟩
    unfold textureOnLoad
    rw [if_pos]
    · rfl
    · rw [Bool.and_eq_true]
      exact ⟨hw.mpr hwp, hh.mpr hhp⟩
  · intro hnot
    unfold textureOnLoad
    rw [if_neg]
    · rfl
    · rw [Bool.and_eq_true]
      rintro ⟨hwt, hht⟩
      exact hnot ⟨hw.mp hwt, hh.mp hht⟩

/-- C8 witness: a 2 x 4 image takes the mipmap branch. -/
theorem C8_mipmap_policy_witness :
    textureOnLoad 1 2 4 =
      [GLCall.bindTexture TEXTURE_2D 1, GLCall.texImage2D 2 4,
       GLCall.generateMipmap TEXTURE_2D] :=
  (C8_mipmap_policy 1 2 4 (by norm_num) (by norm_num) (by norm_num) (by norm_num)).1
    ⟨⟨1, by norm_num⟩, ⟨2, by norm_num⟩⟩

end ImageSequence
